import Mathlib

set_option maxHeartbeats 1000000
set_option maxRecDepth 4000

/- Shallow embedding of the Method-Grill backend (Express + Mongoose).
   Sources embedded: src/controllers/menu-controller.js,
   src/controllers/user-controller.js, the middleware file holding rateLimit,
   the timeout/retry utility file, and the Mongoose User/Menu schemas.
   JavaScript numbers that can be NaN are modeled as Option Int (none = NaN);
   the claims exercised here involve only integral values. -/

/-- Model of JavaScript String.prototype.toLowerCase, mapping Char.toLower
over the character data (faithful for the ASCII strings this code handles). -/
def jsToLowerCase (s : String) : String :=
  String.mk (s.data.map Char.toLower)

/-- Model of JavaScript String.prototype.trim and of the Mongoose trim
setter: drop leading and trailing whitespace. -/
def jsTrim (s : String) : String :=
  String.mk (((s.data.dropWhile Char.isWhitespace).reverse.dropWhile Char.isWhitespace).reverse)

/-- Composition email.trim().toLowerCase() used by the user controller and
by the Mongoose lowercase+trim setters on category and email fields. -/
def jsTrimLower (s : String) : String :=
  jsToLowerCase (jsTrim s)

/-- Decimal digit value for the parseInt model. -/
def decDigitVal (c : Char) : Option Nat :=
  if c.isDigit then some (c.toNat - 48) else none

/-- Hexadecimal digit value for the parseInt model. -/
def hexDigitVal (c : Char) : Option Nat :=
  if c.isDigit then some (c.toNat - 48)
  else if 'a' ≤ c && c ≤ 'f' then some (c.toNat - 87)
  else if 'A' ≤ c && c ≤ 'F' then some (c.toNat - 55)
  else none

/-- Longest prefix of digit values accepted by f. -/
def leadingDigits (f : Char → Option Nat) : List Char → List Nat
  | [] => []
  | c :: cs =>
    match f c with
    | some d => d :: leadingDigits f cs
    | none => []

/-- Value of a digit list in the given base. -/
def digitsVal (base : Nat) (ds : List Nat) : Nat :=
  ds.foldl (fun a d => base * a + d) 0

/-- Body of the parseInt model after sign handling: an optional 0x/0X prefix
selects hexadecimal, otherwise leading decimal digits; none models NaN. -/
def parseIntBody (sign : Int) (cs : List Char) : Option Int :=
  match cs with
  | '0' :: c :: t =>
    if c = 'x' || c = 'X' then
      match leadingDigits hexDigitVal t with
      | [] => none
      | ds => some (sign * Int.ofNat (digitsVal 16 ds))
    else
      match leadingDigits decDigitVal ('0' :: c :: t) with
      | [] => none
      | ds => some (sign * Int.ofNat (digitsVal 10 ds))
  | cs =>
    match leadingDigits decDigitVal cs with
    | [] => none
    | ds => some (sign * Int.ofNat (digitsVal 10 ds))

/-- Model of JavaScript parseInt on a string (radix argument absent):
leading whitespace skipped, optional sign, 0x prefix for hexadecimal,
NaN (none) when no digits are consumed. Exact integers stand in for the
float values parseInt would produce for inputs beyond 2 to the 53. -/
def parseIntJS (s : String) : Option Int :=
  match s.data.dropWhile Char.isWhitespace with
  | '-' :: t => parseIntBody (-1) t
  | '+' :: t => parseIntBody 1 t
  | t => parseIntBody 1 t

/-- Math.max(a, x) with NaN propagation: NaN in, NaN out. -/
def jsMaxNan (a : Int) : Option Int → Option Int
  | none => none
  | some x => some (max a x)

/-- Math.min(a, x) with NaN propagation: NaN in, NaN out. -/
def jsMinNan (a : Int) : Option Int → Option Int
  | none => none
  | some x => some (min a x)

/-- Math.ceil(a / b) on integers for positive b, as in Math.ceil(windowMs / 1000). -/
def jsCeilDiv (a b : Int) : Int :=
  -((-a).fdiv b)

/-- JavaScript truthiness of a possibly-absent string field: undefined and
the empty string are falsy. -/
def truthyStr : Option String → Bool
  | none => false
  | some s => s != ""

/-- JavaScript values a request-body field can hold in the paths modeled
here: undefined, a number (none = NaN), a string, or a boolean. -/
inductive JsVal where
  | undef
  | num (v : Option Int)
  | str (s : String)
  | boolv (b : Bool)
deriving DecidableEq

/-- JavaScript truthiness: undefined, NaN, 0, the empty string and false
are falsy. -/
def JsVal.truthy : JsVal → Bool
  | .undef => false
  | .num none => false
  | .num (some n) => n != 0
  | .str s => s != ""
  | .boolv b => b

/-- The check typeof v === number. -/
def JsVal.isNumber : JsVal → Bool
  | .num _ => true
  | _ => false

/-- The comparison v < 0; NaN < 0 is false in JavaScript. -/
def JsVal.ltZero : JsVal → Bool
  | .num (some n) => decide (n < 0)
  | _ => false

/-- Numeric content of a value already known to be a number. -/
def JsVal.asNum : JsVal → Option Int
  | .num v => v
  | _ => none

/- getAllMenu (menu-controller.js): pagination.
   const pageNum = Math.max(1, parseInt(page));
   const limitNum = Math.min(50, Math.max(1, parseInt(limit)));
   const skip = (pageNum - 1) * limitNum;
   with destructuring defaults page = 1, limit = 10 when absent. -/

/-- Parsed page parameter: destructuring default 1 when absent, otherwise
parseInt of the query string. -/
def pageParsed (page : Option String) : Option Int :=
  match page with
  | none => some 1
  | some s => parseIntJS s

/-- Parsed limit parameter: destructuring default 10 when absent, otherwise
parseInt of the query string. -/
def limitParsed (limit : Option String) : Option Int :=
  match limit with
  | none => some 10
  | some s => parseIntJS s

/-- Effective page: Math.max(1, parseInt(page)). -/
def pageNum (page : Option String) : Option Int :=
  jsMaxNan 1 (pageParsed page)

/-- Effective limit: Math.min(50, Math.max(1, parseInt(limit))). -/
def limitNum (limit : Option String) : Option Int :=
  jsMinNan 50 (jsMaxNan 1 (limitParsed limit))

/-- Skip offset: (pageNum - 1) * limitNum, NaN-propagating. -/
def skipCount (page limit : Option String) : Option Int :=
  match pageNum page, limitNum limit with
  | some p, some l => some ((p - 1) * l)
  | _, _ => none

/- getAllMenu: sorting logic. -/

/-- Sort-field allow-list of getAllMenu. -/
def validSortFields : List String :=
  ["name", "price", "createdAt", "updatedAt", "category"]

/-- Sort specification built by getAllMenu: text-score sort for search
requests, otherwise a single field with direction 1 (asc) or -1 (desc). -/
inductive SortKind where
  | textScore
  | byField (field : String) (dir : Int)
deriving DecidableEq

/-- The condition q and q.trim() not empty that selects the search branch. -/
def isSearchQ : Option String → Bool
  | none => false
  | some s => jsTrim s != ""

/-- Sorting logic of getAllMenu with destructuring defaults
sortBy = createdAt and sortOrder = desc. -/
def menuSort (q sortBy sortOrder : Option String) : SortKind :=
  if isSearchQ q then .textScore
  else
    let sb := sortBy.getD "createdAt"
    let field := if validSortFields.contains sb then sb else "createdAt"
    let dir : Int := if sortOrder.getD "desc" = "asc" then 1 else -1
    .byField field dir

/- Menu catalog model (menu-controller.js + Mongoose Menu schema). -/

/-- Category allow-list hard-coded in addItemMenu and editSingleMenuItem
(note BREAD LOVERS CORNER and the duplicated PEPPERSOUP CORNER). -/
def validCategories : List String :=
  ["SOUPS & SWALLOW", "BREAD LOVERS CORNER", "PEPPERSOUP CORNER", "APPETIZERS", "DESSERT",
   "BEVERAGE", "LIGHT FOOD OPTIONS", "BREAKFAST MENU", "PEPPERSOUP CORNER", "SPECIAL"]

/-- Enum values of the Mongoose Menu schema category field. -/
def menuEnumValues : List String :=
  ["SOUPS & SWALLOW", "APPETIZERS", "DESSERT", "BEVERAGE", "LIGHT FOOD OPTIONS",
   "BREAKFAST MENU", "PEPPERSOUP CORNER", "SPECIAL"]

/-- Enum failure message of the Menu schema (spacing copied from source). -/
def enumMessage : String :=
  "Category must be one of: SOUPS & SWALLOW, APPETIZERS, DESSERT, BEVERAGE, LIGHT FOOD OPTIONS, BREAKFAST MENU, PEPPERSOUP CORNER ,SPECIAL"

/-- Stored menu document restricted to the fields the verified paths touch
(name, price, category); the remaining optional schema fields do not affect
any control-flow decision exercised by the claims. -/
structure StoredMenuItem where
  id : String
  name : String
  price : Option Int
  category : String
deriving DecidableEq

/-- Store-assigned opaque document id. -/
def freshMenuId (store : List StoredMenuItem) : String :=
  toString store.length

/-- Menu schema validation of name (after the trim setter): required,
minlength 2, maxlength 100. -/
def schemaNameErr (n : String) : Option String :=
  if n = "" then some "Menu item name is required"
  else if n.length < 2 then some "Name must be at least 2 characters long"
  else if 100 < n.length then some "Name cannot exceed 100 characters"
  else none

/-- Menu schema validation of price: required plus the custom validator
(not NaN and at least 0) and min 0. -/
def schemaPriceErr : Option Int → Option String
  | none => some "Price must be a valid positive number"
  | some p => if p < 0 then some "Price cannot be negative" else none

/-- Menu schema validation of category after the trim and lowercase setters
have been applied: required, then membership in the uppercase enum values. -/
def schemaCategoryErr (c : String) : Option String :=
  if c = "" then some "Category is required"
  else if !(menuEnumValues.contains c) then some enumMessage
  else none

/-- Menu.create: Mongoose applies the trim setter to name and the trim and
lowercase setters to category, then runs the validators; a validator failure
yields the list of per-field messages (ValidationError). -/
def menuCreate (store : List StoredMenuItem) (name : String) (price : Option Int)
    (category : String) : Except (List String) (StoredMenuItem × List StoredMenuItem) :=
  let n := jsTrim name
  let c := jsTrimLower category
  let errs := ([schemaNameErr n, schemaPriceErr price, schemaCategoryErr c]).filterMap (fun e => e)
  if errs = [] then
    let it : StoredMenuItem := ⟨freshMenuId store, n, price, c⟩
    .ok (it, store ++ [it])
  else .error errs

/-- Responses of addItemMenu: 400 missing fields, 400 bad price, 400 bad
category (allow-list message), 409 duplicate name, 400 Validation failed
(schema ValidationError), 201 created. -/
inductive AddResp where
  | missingFields
  | badPrice
  | badCategory
  | nameConflict
  | schemaRejected (errs : List String)
  | created (it : StoredMenuItem)
deriving DecidableEq

/-- HTTP status of an addItemMenu response. -/
def AddResp.status : AddResp → Nat
  | .missingFields => 400
  | .badPrice => 400
  | .badCategory => 400
  | .nameConflict => 409
  | .schemaRejected _ => 400
  | .created _ => 201

/-- addItemMenu (menu-controller.js lines 5-108): the falsy check on
name, price and category, the typeof/negative price check, the hard-coded
category allow-list, the duplicate-name lookup, then Menu.create. -/
def addItemMenu (store : List StoredMenuItem) (name : Option String) (price : JsVal)
    (category : Option String) : AddResp × List StoredMenuItem :=
  if !(truthyStr name) || !(price.truthy) || !(truthyStr category) then
    (.missingFields, store)
  else if !(price.isNumber) || price.ltZero then
    (.badPrice, store)
  else
    let cat := category.getD ""
    if !(validCategories.contains cat) then (.badCategory, store)
    else
      let nm := jsTrim (name.getD "")
      if store.any (fun it => it.name == nm) then (.nameConflict, store)
      else
        match menuCreate store nm price.asNum cat with
        | .error errs => (.schemaRejected errs, store)
        | .ok (it, store1) => (.created it, store1)

/-- The ObjectId guard id.match of 24 hexadecimal characters shared by the
single-item handlers. -/
def isValidObjectId (id : String) : Bool :=
  id.length == 24 && id.data.all (fun c =>
    c.isDigit || ('a' ≤ c && c ≤ 'f') || ('A' ≤ c && c ≤ 'F'))

/-- Store operations a handler may issue; an empty trace means the store
was never consulted. -/
inductive StoreOp where
  | opFindById (id : String)
  | opFindByIdAndUpdate (id : String)
  | opFindByIdAndDelete (id : String)
deriving DecidableEq

/-- Responses of getSingleMenuItem. -/
inductive GetSingleResp where
  | badId
  | notFound
  | found (it : StoredMenuItem)
deriving DecidableEq

/-- HTTP status of a getSingleMenuItem response. -/
def GetSingleResp.status : GetSingleResp → Nat
  | .badId => 400
  | .notFound => 404
  | .found _ => 200

/-- Message of a getSingleMenuItem response. -/
def GetSingleResp.message : GetSingleResp → Option String
  | .badId => some "Invalid menu item ID"
  | .notFound => some "Menu item not found"
  | .found _ => none

/-- getSingleMenuItem (menu-controller.js lines 324-356): ObjectId guard,
then Menu.findById. The trace records every store call issued. -/
def getSingleMenuItem (store : List StoredMenuItem) (id : String) :
    GetSingleResp × List StoreOp :=
  if !(isValidObjectId id) then (.badId, [])
  else
    match store.find? (fun it => it.id == id) with
    | none => (.notFound, [.opFindById id])
    | some it => (.found it, [.opFindById id])

/-- Update payload restricted to the modeled fields; the handler deletes
_id, createdAt and updatedAt from the payload, which is a no-op on these
fields. -/
structure MenuUpdates where
  name : Option String
  price : Option JsVal
  category : Option String
deriving DecidableEq

/-- Responses of editSingleMenuItem. -/
inductive EditResp where
  | badId
  | badPrice
  | badCategory
  | notFound
  | schemaRejected (errs : List String)
  | updated (it : StoredMenuItem)
deriving DecidableEq

/-- HTTP status of an editSingleMenuItem response. -/
def EditResp.status : EditResp → Nat
  | .badId => 400
  | .badPrice => 400
  | .badCategory => 400
  | .notFound => 404
  | .schemaRejected _ => 400
  | .updated _ => 200

/-- Message of an editSingleMenuItem response. -/
def EditResp.message : EditResp → Option String
  | .badId => some "Invalid menu item ID"
  | .badPrice => some "Price must be a positive number"
  | .badCategory => some "bad category"
  | .notFound => some "Menu item not found"
  | .schemaRejected _ => some "Validation failed"
  | .updated _ => some "Menu item updated successfully"

/-- The controller statement if (updates.name) updates.name = updates.name.trim():
a truthiness-guarded trim. -/
def trimIfTruthy : Option String → Option String
  | none => none
  | some s => if s == "" then some s else some (jsTrim s)

/-- findByIdAndUpdate with runValidators: setters (trim on name, trim and
lowercase on category) then validators on each updated path. -/
def applyUpdates (it : StoredMenuItem) (u : MenuUpdates) :
    Except (List String) StoredMenuItem :=
  let newName := match u.name with
    | none => it.name
    | some s => jsTrim s
  let newPrice := match u.price with
    | none => it.price
    | some v => v.asNum
  let newCat := match u.category with
    | none => it.category
    | some c => jsTrimLower c
  let errs := ([(match u.name with | none => none | some s => schemaNameErr (jsTrim s)),
                (match u.price with | none => none | some v => schemaPriceErr v.asNum),
                (match u.category with | none => none | some c => schemaCategoryErr (jsTrimLower c))]).filterMap
      (fun e => e)
  if errs = [] then .ok ⟨it.id, newName, newPrice, newCat⟩ else .error errs

/-- editSingleMenuItem (menu-controller.js lines 358-443): ObjectId guard,
price validation when present, truthiness-guarded category allow-list
check, truthiness-guarded name trim, then findByIdAndUpdate. -/
def editSingleMenuItem (store : List StoredMenuItem) (id : String) (u : MenuUpdates) :
    EditResp × List StoreOp × List StoredMenuItem :=
  if !(isValidObjectId id) then (.badId, [], store)
  else
    let priceBad := match u.price with
      | none => false
      | some v => !(v.isNumber) || v.ltZero
    if priceBad then (.badPrice, [], store)
    else
      let catBad := match u.category with
        | none => false
        | some c => c != "" && !(validCategories.contains c)
      if catBad then (.badCategory, [], store)
      else
        let u1 : MenuUpdates := ⟨trimIfTruthy u.name, u.price, u.category⟩
        match store.find? (fun it => it.id == id) with
        | none => (.notFound, [.opFindByIdAndUpdate id], store)
        | some it =>
          match applyUpdates it u1 with
          | .error errs => (.schemaRejected errs, [.opFindByIdAndUpdate id], store)
          | .ok it1 =>
            (.updated it1, [.opFindByIdAndUpdate id],
             store.map (fun x => if x.id == id then it1 else x))

/-- Responses of deleteSingleMenuItem. -/
inductive DeleteResp where
  | badId
  | notFound
  | deleted (it : StoredMenuItem)
deriving DecidableEq

/-- HTTP status of a deleteSingleMenuItem response. -/
def DeleteResp.status : DeleteResp → Nat
  | .badId => 400
  | .notFound => 404
  | .deleted _ => 200

/-- Message of a deleteSingleMenuItem response. -/
def DeleteResp.message : DeleteResp → Option String
  | .badId => some "Invalid menu item ID"
  | .notFound => some "Menu item not found"
  | .deleted _ => some "Menu item deleted successfully"

/-- deleteSingleMenuItem (menu-controller.js lines 445-478): ObjectId guard
then Menu.findByIdAndDelete, returning the deleted record. -/
def deleteSingleMenuItem (store : List StoredMenuItem) (id : String) :
    DeleteResp × List StoreOp × List StoredMenuItem :=
  if !(isValidObjectId id) then (.badId, [], store)
  else
    match store.find? (fun it => it.id == id) with
    | none => (.notFound, [.opFindByIdAndDelete id], store)
    | some it =>
      (.deleted it, [.opFindByIdAndDelete id], store.filter (fun x => x.id != id))

/- User model (user-controller.js + Mongoose User schema). -/

/-- Stored user document; password holds the bcrypt hash; isActive defaults
to true and lastLogin is unset on creation. -/
structure UserRec where
  id : String
  name : String
  email : String
  phoneNumber : String
  password : String
  role : String
  isActive : Bool
  lastLogin : Option Int
deriving DecidableEq

/-- JSON body of a register request; role is present in the body but the
controller destructures only name, email, phoneNumber and password. -/
structure RegisterBody where
  name : Option String
  email : Option String
  phoneNumber : Option String
  password : Option String
  role : Option String
deriving DecidableEq

/-- JWT claims issued by generateToken: userId, email, role (expiry 7d is
configuration, not a claim field the code branches on). -/
structure TokenPayload where
  userId : String
  email : String
  role : String
deriving DecidableEq

/-- generateToken (user-controller.js lines 21-31). -/
def generateToken (u : UserRec) : TokenPayload :=
  ⟨u.id, u.email, u.role⟩

/-- One field check of validateInput: falsy value or blank-after-trim
string yields a required-field error. -/
def requiredErr (field : String) (v : Option String) : Option String :=
  match v with
  | none => some (field ++ " is required")
  | some s => if jsTrim s = "" then some (field ++ " is required") else none

/-- validateInput (user-controller.js lines 8-18) over the given fields. -/
def validateInput (fields : List (String × Option String)) : List String :=
  fields.filterMap (fun p => requiredErr p.1 p.2)

/-- Responses of registerUser. -/
inductive RegisterResp where
  | invalid (errors : List String)
  | conflict (message : String)
  | shortPassword
  | createdUser (user : UserRec) (token : TokenPayload)
deriving DecidableEq

/-- HTTP status of a registerUser response. -/
def RegisterResp.status : RegisterResp → Nat
  | .invalid _ => 400
  | .conflict _ => 409
  | .shortPassword => 400
  | .createdUser _ _ => 201

/-- Store-assigned opaque user id. -/
def freshUserId (store : List UserRec) : String :=
  toString store.length

/-- registerUser (user-controller.js lines 34-107): validateInput, then the
duplicate email-or-phone lookup (409), then the password-length check
(400), then User.create with role user and a token for the new user.
hashFn abstracts bcrypt.hash with cost 12. -/
def registerUser (hashFn : String → String) (store : List UserRec) (b : RegisterBody) :
    RegisterResp × List UserRec :=
  let errs := validateInput
    [("name", b.name), ("email", b.email), ("phoneNumber", b.phoneNumber), ("password", b.password)]
  if errs ≠ [] then (.invalid errs, store)
  else
    let email := b.email.getD ""
    let phone := b.phoneNumber.getD ""
    match store.find? (fun u => u.email == email || u.phoneNumber == phone) with
    | some u =>
      (.conflict (if u.email == email then "User with this email already exists"
                  else "User with this phone number already exists"), store)
    | none =>
      let pw := b.password.getD ""
      if pw.length < 6 then (.shortPassword, store)
      else
        let newUser : UserRec :=
          ⟨freshUserId store, jsTrim (b.name.getD ""), jsTrimLower email, jsTrim phone,
           hashFn pw, "user", true, none⟩
        (.createdUser newUser (generateToken newUser), store ++ [newUser])

/-- Responses of login. -/
inductive LoginResp where
  | invalid (errors : List String)
  | failed (message : String)
  | success (token : TokenPayload) (user : UserRec)
deriving DecidableEq

/-- HTTP status of a login response. -/
def LoginResp.status : LoginResp → Nat
  | .invalid _ => 400
  | .failed _ => 401
  | .success _ _ => 200

/-- In-place user replacement modeling findByIdAndUpdate on the user store. -/
def updateUser (store : List UserRec) (id : String) (u : UserRec) : List UserRec :=
  store.map (fun v => if v.id == id then u else v)

/-- login (user-controller.js lines 182-249): validateInput, lookup by
trimmed lowercased email, isActive gate, bcrypt.compare (abstracted as
cmp), lastLogin update and token issue on success. -/
def login (cmp : String → String → Bool) (store : List UserRec) (now : Int)
    (email password : Option String) : LoginResp × List UserRec :=
  let errs := validateInput [("email", email), ("password", password)]
  if errs ≠ [] then (.invalid errs, store)
  else
    let e := jsTrimLower (email.getD "")
    match store.find? (fun u => u.email == e) with
    | none => (.failed "Invalid email or password", store)
    | some u =>
      if !u.isActive then
        (.failed "Account is deactivated. Please contact support.", store)
      else if !(cmp (password.getD "") u.password) then
        (.failed "Invalid email or password", store)
      else
        let u1 : UserRec :=
          ⟨u.id, u.name, u.email, u.phoneNumber, u.password, u.role, u.isActive, some now⟩
        (.success (generateToken u) u1, updateUser store u.id u1)

/- Resilience helpers (timeout/retry utility file). -/

/-- Error thrown by a wrapped operation; status models the optional
HTTP-like status property the retry wrapper inspects. -/
structure JsError where
  status : Option Nat
  tag : String
deriving DecidableEq

/-- The guard error.status && error.status >= 400 && error.status < 500
(status 0 is falsy, absent status short-circuits to false). -/
def isClientError (e : JsError) : Bool :=
  match e.status with
  | some s => s != 0 && decide (400 ≤ s) && decide (s < 500)
  | none => false

/-- The delays delay * 2 ^ i produced by the backoff sleeps for attempt
indices i, i+1, ... over n sleeps. -/
def backoffDelays (d : Nat) : Nat → Nat → List Nat
  | _, 0 => []
  | i, n + 1 => d * 2 ^ i :: backoffDelays d (i + 1) n

/-- Loop of withRetry: fn gives the outcome of each invocation by index;
the result carries the outcome (error none models the throw of an
undefined lastError when maxRetries is 0), the number of invocations, and
the list of backoff sleep durations. A client error is re-thrown at once;
otherwise the loop sleeps delay * 2 ^ i while further iterations remain
and finally throws the last error. -/
def retryLoop {α : Type} (fn : Nat → Except JsError α) (d : Nat) :
    Nat → Nat → Option JsError → Except (Option JsError) α × Nat × List Nat
  | 0, _, last => (.error last, 0, [])
  | r + 1, i, _ =>
    match fn i with
    | .ok v => (.ok v, 1, [])
    | .error e =>
      if isClientError e then (.error (some e), 1, [])
      else
        match r with
        | 0 => (.error (some e), 1, [])
        | r1 + 1 =>
          match retryLoop fn d (r1 + 1) (i + 1) (some e) with
          | (res, n, ds) => (res, n + 1, d * 2 ^ i :: ds)

/-- withRetry(fn, maxRetries, delay): source defaults are 3 and 1000. -/
def withRetry {α : Type} (fn : Nat → Except JsError α) (maxRetries d : Nat) :
    Except (Option JsError) α × Nat × List Nat :=
  retryLoop fn d maxRetries 0 none

/-- withTimeout races the operation against a timer; real-time racing is
not embeddable, so the model records the wrapped computation together with
its timeout configuration. Source defaults are 25000 and Operation timeout. -/
structure TimedOp (α : Type) where
  inner : α
  timeoutMs : Nat
  errorMessage : String

/-- Constructor mirroring withTimeout(promise, timeoutMs, errorMessage). -/
def withTimeout {α : Type} (p : α) (timeoutMs : Nat) (errorMessage : String) : TimedOp α :=
  ⟨p, timeoutMs, errorMessage⟩

/-- dbOperationWithTimeout(operation): withTimeout(withRetry(operation, 2, 500),
20000, Database operation timeout). -/
def dbOperationWithTimeout {α : Type} (operation : Nat → Except JsError α) :
    TimedOp (Except (Option JsError) α × Nat × List Nat) :=
  withTimeout (withRetry operation 2 500) 20000 "Database operation timeout"

/- Rate limiter (middleware file). -/

/-- Per-client timestamp map; the Map with get-or-default-empty access is
modeled as a total function defaulting to the empty list (filtering the
empty list is the identity, so the has-guarded cleanup step coincides). -/
abbrev RateState : Type := String → List Int

/-- Initial empty rate-limiter map. -/
def emptyRate : RateState := fun _ => []

/-- Map.set on the rate-limiter state. -/
def setClient (st : RateState) (ip : String) (ts : List Int) : RateState :=
  fun x => if x = ip then ts else st x

/-- Outcome of one request through the rate limiter: pass to next, or a
429 response with its retryAfter hint. -/
inductive RateResp where
  | allowed
  | rejected (retryAfter : Int)
deriving DecidableEq

/-- rateLimit middleware body for one request: drop timestamps no newer
than now - windowMs, reject with retryAfter = ceil(windowMs / 1000) when
the remaining count reaches maxRequests (without recording the request),
otherwise record now and allow. -/
def rateLimit (maxRequests : Nat) (windowMs : Int) (ip : String) (now : Int)
    (st : RateState) : RateResp × RateState :=
  let windowStart := now - windowMs
  let st1 := setClient st ip ((st ip).filter (fun t => decide (windowStart < t)))
  let currentRequests := st1 ip
  if maxRequests ≤ currentRequests.length then
    (.rejected (jsCeilDiv windowMs 1000), st1)
  else
    (.allowed, setClient st1 ip (currentRequests ++ [now]))

/-- Sequential requests through the rate limiter at the given times. -/
def runCalls (m : Nat) (w : Int) (ip : String) : List Int → RateState → List RateResp × RateState
  | [], st => ([], st)
  | t :: ts, st =>
    let p := rateLimit m w ip t st
    let q := runCalls m w ip ts p.2
    (p.1 :: q.1, q.2)

/- Theorems. -/

/-- Claim C1: the spec scenario says an admin POST of name Jollof Rice,
price 2500, category SPECIAL returns 201 with the created record, is then
retrievable via the lowercased category filter, deletable, and finally 404.
The code never reaches 201: the controller allow-list admits SPECIAL, but
the Mongoose lowercase setter turns it into special before the uppercase
enum validator runs, so Menu.create raises a ValidationError and the
handler answers 400 Validation failed; the scenario dies at its first step. -/
theorem c1_create_rejected :
    addItemMenu [] (some "Jollof Rice") (JsVal.num (some 2500)) (some "SPECIAL")
      = (AddResp.schemaRejected [enumMessage], []) ∧
    AddResp.status (AddResp.schemaRejected [enumMessage]) = 400 ∧
    validCategories.contains "SPECIAL" = true ∧
    jsTrimLower "SPECIAL" = "special" ∧
    menuEnumValues.contains "special" = false := by
  refine ⟨by decide, rfl, by decide, by decide, by decide⟩

/-- Claim C4: the spec says every numeric price at least 0 is accepted and
price 0 is not rejected as invalid input. The falsy required-fields check
(bang-price) treats the number 0 as missing, so a create request with
price 0 is answered 400 missing-fields, although both the dedicated
controller price check and the schema price validators accept 0. -/
theorem c4_zero_price_rejected :
    addItemMenu [] (some "Jollof Rice") (JsVal.num (some 0)) (some "SPECIAL")
      = (AddResp.missingFields, []) ∧
    AddResp.status AddResp.missingFields = 400 ∧
    JsVal.ltZero (JsVal.num (some 0)) = false ∧
    schemaPriceErr (some 0) = none := by
  refine ⟨by decide, rfl, by decide, by decide⟩

/-- Claim C2 counterexample: for the non-numeric limit value abc, parseInt
yields NaN, Math.max and Math.min propagate it, and no effective limit in
the range 1..50 exists, refuting the claim that the effective limit always
equals clamp(limit, 1, 50); the effective page is NaN as well. -/
theorem c2_counterexample :
    pageNum (some "abc") = none ∧ limitNum (some "abc") = none ∧
    skipCount (some "abc") (some "abc") = none ∧
    ¬∃ l : Int, limitNum (some "abc") = some l ∧ 1 ≤ l ∧ l ≤ 50 := by
  refine ⟨rfl, rfl, rfl, ?_⟩
  rintro ⟨l, hl, -, -⟩
  have hnone : limitNum (some "abc") = none := rfl
  rw [hnone] at hl
  cases hl

/-- Claim C2 (amended): whenever the requested page and limit parse to
numbers (including the defaults 1 and 10 for missing parameters), the
effective page is max(1, page), the effective limit is clamp(limit, 1, 50)
and the skip offset is (effectivePage - 1) * effectiveLimit; a non-numeric
parameter instead propagates NaN (the counterexample above). -/
theorem c2_pagination (page limit : Option String) (p l : Int)
    (hp : pageParsed page = some p) (hl : limitParsed limit = some l) :
    pageNum page = some (max 1 p) ∧
    limitNum limit = some (min 50 (max 1 l)) ∧
    skipCount page limit = some ((max 1 p - 1) * min 50 (max 1 l)) := by
  have h1 : pageNum page = some (max 1 p) := by
    simp [pageNum, hp, jsMaxNan]
  have h2 : limitNum limit = some (min 50 (max 1 l)) := by
    simp [limitNum, hl, jsMaxNan, jsMinNan]
  exact ⟨h1, h2, by simp [skipCount, h1, h2]⟩

/-- Claim C2 witness: page 0 clamps to 1, limit 1000 clamps to 50, skip 0. -/
theorem c2_pagination_witness :
    pageNum (some "0") = some (max 1 0) ∧
    limitNum (some "1000") = some (min 50 (max 1 1000)) ∧
    skipCount (some "0") (some "1000") = some ((max 1 0 - 1) * min 50 (max 1 1000)) :=
  c2_pagination (some "0") (some "1000") 0 1000 rfl rfl

/-- Claim C3 counterexample: a sortBy outside the allow-list combined with
sortOrder asc sorts by createdAt ascending, not descending, refuting the
claim that the fallback is creation time descending for every sortOrder. -/
theorem c3_counterexample :
    menuSort none (some "bogus") (some "asc") = SortKind.byField "createdAt" 1 ∧
    SortKind.byField "createdAt" (1 : Int) ≠ SortKind.byField "createdAt" (-1) := by
  refine ⟨by decide, by decide⟩

/-- Claim C3 (amended): in the non-search case a sortBy outside the
allow-list falls back to the createdAt field while keeping the requested
direction: descending by default and for any sortOrder other than asc,
ascending when sortOrder is asc. -/
theorem c3_sort_fallback (q sortBy sortOrder : Option String) (s : String)
    (hq : isSearchQ q = false) (hs : sortBy = some s)
    (hv : s ∉ validSortFields) :
    menuSort q sortBy sortOrder
      = SortKind.byField "createdAt" (if sortOrder.getD "desc" = "asc" then 1 else -1) := by
  simp [menuSort, hq, hs, hv]

/-- Claim C3 witness: sortBy bogus with sortOrder desc falls back to the
createdAt field with the requested (descending) direction. -/
theorem c3_sort_fallback_witness :
    menuSort none (some "bogus") (some "desc")
      = SortKind.byField "createdAt" (if (some "desc").getD "desc" = "asc" then 1 else -1) :=
  c3_sort_fallback none (some "bogus") (some "desc") "bogus" rfl rfl (by decide)

/-- Claim C5 counterexample: a register request whose password abc is
shorter than 6 characters but whose email duplicates a registered user is
answered 409 Conflict, not 400 InvalidInput: the duplicate lookup runs
before the password-length check. -/
theorem c5_counterexample :
    (registerUser (fun s => s) [⟨"0", "Ann", "a@b.com", "555", "h", "user", true, none⟩]
        ⟨some "Bob", some "a@b.com", some "123", some "abc", none⟩).1
      = RegisterResp.conflict "User with this email already exists" ∧
    RegisterResp.status (RegisterResp.conflict "User with this email already exists") = 409 ∧
    ("abc".length < 6) := by
  refine ⟨by decide, rfl, by decide⟩

/-- Claim C5 (amended): a register request whose password is shorter than
6 characters never creates a user and never mutates the store, and when no
registered user matches the requested email or phone number the response
is a 400; when such a duplicate exists the duplicate check answers 409
Conflict first (the counterexample above), still without a mutation. -/
theorem c5_short_password (hashFn : String → String) (store : List UserRec)
    (b : RegisterBody) (h : (b.password.getD "").length < 6) :
    (registerUser hashFn store b).2 = store ∧
    RegisterResp.status (registerUser hashFn store b).1 ≠ 201 ∧
    ((∀ u ∈ store, ¬(u.email = b.email.getD "" ∨ u.phoneNumber = b.phoneNumber.getD "")) →
      RegisterResp.status (registerUser hashFn store b).1 = 400) := by
  by_cases he : validateInput
      [("name", b.name), ("email", b.email), ("phoneNumber", b.phoneNumber),
       ("password", b.password)] = []
  · rcases hfind : store.find?
        (fun u => u.email == b.email.getD "" || u.phoneNumber == b.phoneNumber.getD "") with _ | u
    · refine ⟨?_, ?_, ?_⟩ <;>
        simp [registerUser, he, hfind, h, RegisterResp.status]
    · have hmem := List.mem_of_find?_eq_some hfind
      have hprop := List.find?_some hfind
      refine ⟨?_, ?_, ?_⟩
      · simp [registerUser, he, hfind]
      · simp [registerUser, he, hfind, RegisterResp.status]
      · intro hnone
        exfalso
        have := hnone u hmem
        simp only [Bool.or_eq_true, beq_iff_eq] at hprop
        exact this hprop
  · refine ⟨?_, ?_, ?_⟩ <;>
      simp [registerUser, he, RegisterResp.status]

/-- Claim C5 witness: a fresh store with password abc yields no mutation
and (duplicate-free) a 400 response. -/
theorem c5_short_password_witness :
    (registerUser (fun s => s) []
        ⟨some "Bob", some "b@c.com", some "124", some "abc", none⟩).2 = [] ∧
    RegisterResp.status (registerUser (fun s => s) []
        ⟨some "Bob", some "b@c.com", some "124", some "abc", none⟩).1 ≠ 201 ∧
    ((∀ u ∈ ([] : List UserRec),
        ¬(u.email = (RegisterBody.email ⟨some "Bob", some "b@c.com", some "124", some "abc", none⟩).getD ""
          ∨ u.phoneNumber = (RegisterBody.phoneNumber ⟨some "Bob", some "b@c.com", some "124", some "abc", none⟩).getD "")) →
      RegisterResp.status (registerUser (fun s => s) []
        ⟨some "Bob", some "b@c.com", some "124", some "abc", none⟩).1 = 400) :=
  c5_short_password (fun s => s) [] ⟨some "Bob", some "b@c.com", some "124", some "abc", none⟩
    (by decide)

/-- Claim C6: a first failure tagged with a 4xx status is re-thrown after
exactly one invocation with no backoff sleep; when every invocation fails
without a client status the operation is invoked exactly maxRetries times
with sleeps of baseDelay * 2 ^ attempt between them and the last failure
is raised; and dbOperationWithTimeout composes withRetry with maxRetries 2
and base delay 500 under withTimeout at 20000 ms. -/
theorem c6_withRetry_spec :
    (∀ (α : Type) (fn : Nat → Except JsError α) (m d : Nat) (e : JsError),
      fn 0 = .error e → isClientError e = true →
      withRetry fn (m + 1) d = (.error (some e), 1, [])) ∧
    (∀ (α : Type) (errs : Nat → JsError) (m d : Nat),
      (∀ i, isClientError (errs i) = false) →
      withRetry (fun j => (.error (errs j) : Except JsError α)) (m + 1) d
        = (.error (some (errs m)), m + 1, backoffDelays d 0 m)) ∧
    (∀ (α : Type) (operation : Nat → Except JsError α),
      dbOperationWithTimeout operation
        = withTimeout (withRetry operation 2 500) 20000 "Database operation timeout") := by
  refine ⟨?_, ?_, ?_⟩
  · intro α fn m d e h0 hc
    cases m with
    | zero => simp [withRetry, retryLoop, h0, hc]
    | succ m1 => simp [withRetry, retryLoop, h0, hc]
  · intro α errs m d h
    have main : ∀ (r i : Nat) (last : Option JsError),
        retryLoop (fun j => (.error (errs j) : Except JsError α)) d (r + 1) i last
          = (.error (some (errs (i + r))), r + 1, backoffDelays d i r) := by
      intro r
      induction r with
      | zero =>
        intro i last
        simp [retryLoop, h i, backoffDelays]
      | succ r ih =>
        intro i last
        have hidx : i + 1 + r = i + (r + 1) := by omega
        simp [retryLoop, h i, ih (i + 1) (some (errs i)), backoffDelays, hidx]
    simpa using main m 0 none
  · intro α operation
    rfl

/-- Claim C6 witness: a 404-tagged failure is thrown after one call with
no sleeps; three non-client failures exhaust 3 attempts with sleeps of
100 and 200 ms and raise the last failure. -/
theorem c6_withRetry_spec_witness :
    withRetry (fun _ => (.error ⟨some 404, "nf"⟩ : Except JsError Nat)) 3 100
      = (.error (some ⟨some 404, "nf"⟩), 1, []) ∧
    withRetry (fun _ => (.error ⟨none, "down"⟩ : Except JsError Nat)) 3 100
      = (.error (some ⟨none, "down"⟩), 3, backoffDelays 100 0 2) := by
  constructor
  · exact c6_withRetry_spec.1 Nat (fun _ => .error ⟨some 404, "nf"⟩) 2 100 ⟨some 404, "nf"⟩
      rfl (by decide)
  · exact c6_withRetry_spec.2.1 Nat (fun _ => ⟨none, "down"⟩) 2 100 (fun _ => rfl)

/-- Filtering a replicated list keeps all or nothing. -/
theorem filterReplicateIf (p : Int → Bool) (a : Int) (k : Nat) :
    (List.replicate k a).filter p = if p a then List.replicate k a else [] := by
  induction k with
  | zero => simp
  | succ k ih =>
    cases hpa : p a with
    | false => simp [List.replicate_succ, List.filter_cons, hpa, ih]
    | true => simp [List.replicate_succ, List.filter_cons, hpa, ih]

/-- Appending one more copy to a replicated list. -/
theorem replicateSnoc (a : Int) (k : Nat) :
    List.replicate k a ++ [a] = List.replicate (k + 1) a := by
  induction k with
  | zero => rfl
  | succ k ih => simp [List.replicate_succ, ih]

/-- One rate-limiter step below the threshold: the request is allowed and
recorded. -/
theorem rateLimitAllowStep (m : Nat) (w now : Int) (ip : String) (st : RateState) (k : Nat)
    (hw : 0 < w) (hk : k < m) (hst : st ip = List.replicate k now) :
    (rateLimit m w ip now st).1 = RateResp.allowed ∧
    (rateLimit m w ip now st).2 ip = List.replicate (k + 1) now := by
  have hp : (decide (now - w < now)) = true := by
    rw [decide_eq_true_eq]
    omega
  have hfilter : (st ip).filter (fun t => decide (now - w < t)) = List.replicate k now := by
    rw [hst, filterReplicateIf, hp]
    simp
  constructor
  · simp [rateLimit, setClient, hfilter, Nat.not_le.mpr hk]
  · simp [rateLimit, setClient, hfilter, Nat.not_le.mpr hk, replicateSnoc]

/-- Running j further requests at the same instant from a client that has
k recorded timestamps, with k + j within the threshold: all allowed, and
the recorded list grows to k + j copies. -/
theorem runCallsAllAllowed (m : Nat) (w now : Int) (ip : String) (hw : 0 < w) :
    ∀ (j k : Nat) (st : RateState), k + j ≤ m → st ip = List.replicate k now →
      (∀ r ∈ (runCalls m w ip (List.replicate j now) st).1, r = RateResp.allowed) ∧
      (runCalls m w ip (List.replicate j now) st).2 ip = List.replicate (k + j) now := by
  intro j
  induction j with
  | zero =>
    intro k st hle hst
    constructor
    · intro r hr
      simp [runCalls] at hr
    · simpa [runCalls] using hst
  | succ j ih =>
    intro k st hle hst
    have hk : k < m := by omega
    obtain ⟨ha, hs⟩ := rateLimitAllowStep m w now ip st k hw hk hst
    obtain ⟨iha, ihs⟩ := ih (k + 1) (rateLimit m w ip now st).2 (by omega) hs
    rw [List.replicate_succ]
    constructor
    · intro r hr
      simp only [runCalls, List.mem_cons] at hr
      cases hr with
      | inl h => rw [h, ha]
      | inr h => exact iha r h
    · have hidx : k + 1 + j = k + (j + 1) := by omega
      simp only [runCalls]
      rw [ihs, hidx]

/-- Claim C7: starting from the empty limiter state, a client making
maxRequests calls at one instant inside the window is allowed every time;
the next call at that instant is rejected with retryAfter equal to
ceil(windowMs / 1000), and the rejected call is not recorded (the stored
list still holds exactly maxRequests timestamps); one window length after
those timestamps the same client is allowed again. -/
theorem c7_rate_limiter (m : Nat) (w now : Int) (ip : String) (hm : 1 ≤ m) (hw : 0 < w) :
    (∀ r ∈ (runCalls m w ip (List.replicate m now) emptyRate).1, r = RateResp.allowed) ∧
    (rateLimit m w ip now (runCalls m w ip (List.replicate m now) emptyRate).2).1
      = RateResp.rejected (jsCeilDiv w 1000) ∧
    (rateLimit m w ip now (runCalls m w ip (List.replicate m now) emptyRate).2).2 ip
      = List.replicate m now ∧
    (rateLimit m w ip (now + w)
        (rateLimit m w ip now (runCalls m w ip (List.replicate m now) emptyRate).2).2).1
      = RateResp.allowed := by
  obtain ⟨hall, hst⟩ := runCallsAllAllowed m w now ip hw m 0 emptyRate (by omega) rfl
  rw [Nat.zero_add] at hst
  have hp : (decide (now - w < now)) = true := by
    rw [decide_eq_true_eq]
    omega
  have hfilter : ((runCalls m w ip (List.replicate m now) emptyRate).2 ip).filter
      (fun t => decide (now - w < t)) = List.replicate m now := by
    rw [hst, filterReplicateIf, hp]
    simp
  have hrej1 : (rateLimit m w ip now (runCalls m w ip (List.replicate m now) emptyRate).2).1
      = RateResp.rejected (jsCeilDiv w 1000) := by
    simp [rateLimit, setClient, hfilter]
  have hrej2 : (rateLimit m w ip now (runCalls m w ip (List.replicate m now) emptyRate).2).2 ip
      = List.replicate m now := by
    simp [rateLimit, setClient, hfilter]
  have hp2 : (decide (now + w - w < now)) = false := by
    rw [decide_eq_false_iff_not]
    omega
  have hfilter2 : (List.replicate m now).filter (fun t => decide (now + w - w < t)) = [] := by
    rw [filterReplicateIf, hp2]
    simp
  have hagain : (rateLimit m w ip (now + w)
      (rateLimit m w ip now (runCalls m w ip (List.replicate m now) emptyRate).2).2).1
      = RateResp.allowed := by
    have hnle : ¬ m ≤ 0 := by omega
    generalize hS : (rateLimit m w ip now
      (runCalls m w ip (List.replicate m now) emptyRate).2).2 = S at hrej2
    simp [rateLimit, setClient, hrej2, hfilter2, hnle]
  exact ⟨hall, hrej1, hrej2, hagain⟩

/-- Claim C7 witness: threshold 2, window 1000 ms, client c at time 0. -/
theorem c7_rate_limiter_witness :
    (∀ r ∈ (runCalls 2 1000 "c" (List.replicate 2 0) emptyRate).1, r = RateResp.allowed) ∧
    (rateLimit 2 1000 "c" 0 (runCalls 2 1000 "c" (List.replicate 2 0) emptyRate).2).1
      = RateResp.rejected (jsCeilDiv 1000 1000) ∧
    (rateLimit 2 1000 "c" 0 (runCalls 2 1000 "c" (List.replicate 2 0) emptyRate).2).2 "c"
      = List.replicate 2 0 ∧
    (rateLimit 2 1000 "c" (0 + 1000)
        (rateLimit 2 1000 "c" 0 (runCalls 2 1000 "c" (List.replicate 2 0) emptyRate).2).2).1
      = RateResp.allowed :=
  c7_rate_limiter 2 1000 0 "c" (by decide) (by decide)

/-- Claim C8: a login whose email matches no stored user and a login whose
email matches an active user but whose password fails the bcrypt
comparison both answer 401 with the character-for-character identical
message Invalid email or password. -/
theorem c8_login_indistinguishable (cmp1 cmp2 : String → String → Bool)
    (store1 store2 : List UserRec) (now1 now2 : Int) (e1 p1 e2 p2 : String) (u : UserRec)
    (he1 : jsTrim e1 ≠ "") (hp1 : jsTrim p1 ≠ "")
    (he2 : jsTrim e2 ≠ "") (hp2 : jsTrim p2 ≠ "")
    (hfind1 : store1.find? (fun v => v.email == jsTrimLower e1) = none)
    (hfind2 : store2.find? (fun v => v.email == jsTrimLower e2) = some u)
    (hact : u.isActive = true) (hcmp : cmp2 p2 u.password = false) :
    (login cmp1 store1 now1 (some e1) (some p1)).1
      = LoginResp.failed "Invalid email or password" ∧
    (login cmp1 store1 now1 (some e1) (some p1)).1
      = (login cmp2 store2 now2 (some e2) (some p2)).1 ∧
    LoginResp.status (LoginResp.failed "Invalid email or password") = 401 := by
  have hv1 : validateInput [("email", some e1), ("password", some p1)] = [] := by
    simp [validateInput, requiredErr, he1, hp1]
  have hv2 : validateInput [("email", some e2), ("password", some p2)] = [] := by
    simp [validateInput, requiredErr, he2, hp2]
  have h1 : (login cmp1 store1 now1 (some e1) (some p1)).1
      = LoginResp.failed "Invalid email or password" := by
    simp [login, hv1, hfind1]
  have h2 : (login cmp2 store2 now2 (some e2) (some p2)).1
      = LoginResp.failed "Invalid email or password" := by
    simp [login, hv2, hfind2, hact, hcmp]
  exact ⟨h1, h1.trans h2.symm, rfl⟩

/-- Claim C8 witness: an unknown email on an empty store versus a wrong
password for the active user with email a@b.com. -/
theorem c8_login_indistinguishable_witness :
    (login (fun a b => a == b) [] 5 (some "x@y.com") (some "pw")).1
      = LoginResp.failed "Invalid email or password" ∧
    (login (fun a b => a == b) [] 5 (some "x@y.com") (some "pw")).1
      = (login (fun a b => a == b) [⟨"0", "Ann", "a@b.com", "555", "hash", "user", true, none⟩]
          6 (some "A@b.com") (some "wrong")).1 ∧
    LoginResp.status (LoginResp.failed "Invalid email or password") = 401 :=
  c8_login_indistinguishable (fun a b => a == b) (fun a b => a == b) []
    [⟨"0", "Ann", "a@b.com", "555", "hash", "user", true, none⟩] 5 6
    "x@y.com" "pw" "A@b.com" "wrong" ⟨"0", "Ann", "a@b.com", "555", "hash", "user", true, none⟩
    (by decide) (by decide) (by decide) (by decide) rfl (by decide) rfl (by decide)

/-- Claim C9: an id that is not 24 hexadecimal characters makes the GET,
PUT and DELETE single-item handlers answer 400 with message Invalid menu
item ID, with an empty store-operation trace (the store is never
consulted) and an unchanged store; the response is the 400 badId response,
never the 404 notFound one. -/
theorem c9_invalid_id (store : List StoredMenuItem) (u : MenuUpdates) (id : String)
    (h : isValidObjectId id = false) :
    getSingleMenuItem store id = (GetSingleResp.badId, []) ∧
    editSingleMenuItem store id u = (EditResp.badId, [], store) ∧
    deleteSingleMenuItem store id = (DeleteResp.badId, [], store) ∧
    GetSingleResp.status GetSingleResp.badId = 400 ∧
    GetSingleResp.message GetSingleResp.badId = some "Invalid menu item ID" ∧
    EditResp.status EditResp.badId = 400 ∧
    EditResp.message EditResp.badId = some "Invalid menu item ID" ∧
    DeleteResp.status DeleteResp.badId = 400 ∧
    DeleteResp.message DeleteResp.badId = some "Invalid menu item ID" := by
  refine ⟨?_, ?_, ?_, rfl, rfl, rfl, rfl, rfl, rfl⟩
  · simp [getSingleMenuItem, h]
  · simp [editSingleMenuItem, h]
  · simp [deleteSingleMenuItem, h]

/-- Claim C9 witness: the malformed id zzz on a singleton store. -/
theorem c9_invalid_id_witness :
    getSingleMenuItem [⟨"0", "Jollof Rice", some 2500, "special"⟩] "zzz"
      = (GetSingleResp.badId, []) ∧
    editSingleMenuItem [⟨"0", "Jollof Rice", some 2500, "special"⟩] "zzz" ⟨none, none, none⟩
      = (EditResp.badId, [], [⟨"0", "Jollof Rice", some 2500, "special"⟩]) ∧
    deleteSingleMenuItem [⟨"0", "Jollof Rice", some 2500, "special"⟩] "zzz"
      = (DeleteResp.badId, [], [⟨"0", "Jollof Rice", some 2500, "special"⟩]) ∧
    GetSingleResp.status GetSingleResp.badId = 400 ∧
    GetSingleResp.message GetSingleResp.badId = some "Invalid menu item ID" ∧
    EditResp.status EditResp.badId = 400 ∧
    EditResp.message EditResp.badId = some "Invalid menu item ID" ∧
    DeleteResp.status DeleteResp.badId = 400 ∧
    DeleteResp.message DeleteResp.badId = some "Invalid menu item ID" :=
  c9_invalid_id [⟨"0", "Jollof Rice", some 2500, "special"⟩] ⟨none, none, none⟩ "zzz" (by decide)

/-- Claim C10: registerUser never reads the role field of the body, so two
register requests differing only in a supplied role produce identical
results; and every successful registration stores role user and issues a
token encoding role user. -/
theorem c10_role_ignored :
    (∀ (hashFn : String → String) (store : List UserRec) (b : RegisterBody)
        (r1 r2 : Option String),
      registerUser hashFn store ⟨b.name, b.email, b.phoneNumber, b.password, r1⟩
        = registerUser hashFn store ⟨b.name, b.email, b.phoneNumber, b.password, r2⟩) ∧
    (∀ (hashFn : String → String) (store store1 : List UserRec) (b : RegisterBody)
        (u : UserRec) (tok : TokenPayload),
      registerUser hashFn store b = (.createdUser u tok, store1) →
      u.role = "user" ∧ tok.role = "user") := by
  constructor
  · intro hashFn store b r1 r2
    rfl
  · intro hashFn store store1 b u tok h
    simp only [registerUser] at h
    split at h
    · simp at h
    · split at h
      · simp at h
      · split at h
        · simp at h
        · rw [Prod.mk.injEq] at h
          obtain ⟨h1, -⟩ := h
          cases h1
          exact ⟨rfl, rfl⟩

/-- Claim C10 witness: registering with a supplied role admin still stores
and encodes role user. -/
theorem c10_role_ignored_witness :
    (⟨"0", "Bob", "b@c.com", "1234", "secret1", "user", true, none⟩ : UserRec).role = "user" ∧
    (⟨"0", "b@c.com", "user"⟩ : TokenPayload).role = "user" :=
  c10_role_ignored.2 (fun s => s) []
    [⟨"0", "Bob", "b@c.com", "1234", "secret1", "user", true, none⟩]
    ⟨some "Bob", some "B@c.com", some "1234", some "secret1", some "admin"⟩
    ⟨"0", "Bob", "b@c.com", "1234", "secret1", "user", true, none⟩
    ⟨"0", "b@c.com", "user"⟩ (by decide)
